import Mathlib

/-
Verification development for urwid's str_util.c (unicode width tables,
UTF-8 decoding, double-byte scanning and column-position search).

Machine integers are modelled as Nat (all quantities involved are
non-negative in the claims considered); byte buffers are `List Nat`
read through `List.getD _ _ 0`.  Offsets that the C code can drive
below zero (`decode_one_right`'s previous-offset, the backward-scan
index in `Py_WithinDoubleByte`) are modelled as Int.
-/

set_option maxRecDepth 4000

/-- The three byte-encoding modes ENC_UTF8 / ENC_WIDE / ENC_NARROW. -/
inductive Enc
  | utf8
  | wide
  | narrow
  deriving DecidableEq

/-- Tail of the static `widths` table (all pairs after the first two). -/
def widthTableTail : List (Nat × Nat) := [
(31, 0),
(126, 1),
(159, 0),
(767, 1),
(879, 0),
(1154, 1),
(1161, 0),
(1424, 1),
(1469, 0),
(1470, 1),
(1471, 0),
(1472, 1),
(1474, 0),
(1475, 1),
(1477, 0),
(1478, 1),
(1479, 0),
(1535, 1),
(1541, 0),
(1551, 1),
(1562, 0),
(1563, 1),
(1564, 0),
(1610, 1),
(1631, 0),
(1647, 1),
(1648, 0),
(1749, 1),
(1757, 0),
(1758, 1),
(1764, 0),
(1766, 1),
(1768, 0),
(1769, 1),
(1773, 0),
(1806, 1),
(1807, 0),
(1808, 1),
(1809, 0),
(1839, 1),
(1866, 0),
(1957, 1),
(1968, 0),
(2026, 1),
(2035, 0),
(2044, 1),
(2045, 0),
(2069, 1),
(2073, 0),
(2074, 1),
(2083, 0),
(2084, 1),
(2087, 0),
(2088, 1),
(2093, 0),
(2136, 1),
(2139, 0),
(2258, 1),
(2307, 0),
(2361, 1),
(2364, 0),
(2365, 1),
(2383, 0),
(2384, 1),
(2391, 0),
(2401, 1),
(2403, 0),
(2432, 1),
(2435, 0),
(2491, 1),
(2492, 0),
(2493, 1),
(2500, 0),
(2502, 1),
(2504, 0),
(2506, 1),
(2509, 0),
(2518, 1),
(2519, 0),
(2529, 1),
(2531, 0),
(2557, 1),
(2558, 0),
(2560, 1),
(2563, 0),
(2619, 1),
(2620, 0),
(2621, 1),
(2626, 0),
(2630, 1),
(2632, 0),
(2634, 1),
(2637, 0),
(2640, 1),
(2641, 0),
(2671, 1),
(2673, 0),
(2676, 1),
(2677, 0),
(2688, 1),
(2691, 0),
(2747, 1),
(2748, 0),
(2749, 1),
(2757, 0),
(2758, 1),
(2761, 0),
(2762, 1),
(2765, 0),
(2785, 1),
(2787, 0),
(2809, 1),
(2815, 0),
(2816, 1),
(2819, 0),
(2875, 1),
(2876, 0),
(2877, 1),
(2884, 0),
(2886, 1),
(2888, 0),
(2890, 1),
(2893, 0),
(2900, 1),
(2903, 0),
(2913, 1),
(2915, 0),
(2945, 1),
(2946, 0),
(3005, 1),
(3010, 0),
(3013, 1),
(3016, 0),
(3017, 1),
(3021, 0),
(3030, 1),
(3031, 0),
(3071, 1),
(3076, 0),
(3133, 1),
(3140, 0),
(3141, 1),
(3144, 0),
(3145, 1),
(3149, 0),
(3156, 1),
(3158, 0),
(3169, 1),
(3171, 0),
(3200, 1),
(3203, 0),
(3259, 1),
(3260, 0),
(3261, 1),
(3268, 0),
(3269, 1),
(3272, 0),
(3273, 1),
(3277, 0),
(3284, 1),
(3286, 0),
(3297, 1),
(3299, 0),
(3327, 1),
(3331, 0),
(3386, 1),
(3388, 0),
(3389, 1),
(3396, 0),
(3397, 1),
(3400, 0),
(3401, 1),
(3405, 0),
(3414, 1),
(3415, 0),
(3425, 1),
(3427, 0),
(3456, 1),
(3459, 0),
(3529, 1),
(3530, 0),
(3534, 1),
(3540, 0),
(3541, 1),
(3542, 0),
(3543, 1),
(3551, 0),
(3569, 1),
(3571, 0),
(3632, 1),
(3633, 0),
(3635, 1),
(3642, 0),
(3654, 1),
(3662, 0),
(3760, 1),
(3761, 0),
(3763, 1),
(3772, 0),
(3783, 1),
(3789, 0),
(3863, 1),
(3865, 0),
(3892, 1),
(3893, 0),
(3894, 1),
(3895, 0),
(3896, 1),
(3897, 0),
(3901, 1),
(3903, 0),
(3952, 1),
(3972, 0),
(3973, 1),
(3975, 0),
(3980, 1),
(3991, 0),
(3992, 1),
(4028, 0),
(4037, 1),
(4038, 0),
(4138, 1),
(4158, 0),
(4181, 1),
(4185, 0),
(4189, 1),
(4192, 0),
(4193, 1),
(4196, 0),
(4198, 1),
(4205, 0),
(4208, 1),
(4212, 0),
(4225, 1),
(4237, 0),
(4238, 1),
(4239, 0),
(4249, 1),
(4253, 0),
(4351, 1),
(4447, 2),
(4956, 1),
(4959, 0),
(5905, 1),
(5908, 0),
(5937, 1),
(5940, 0),
(5969, 1),
(5971, 0),
(6001, 1),
(6003, 0),
(6067, 1),
(6099, 0),
(6108, 1),
(6109, 0),
(6154, 1),
(6158, 0),
(6276, 1),
(6278, 0),
(6312, 1),
(6313, 0),
(6431, 1),
(6443, 0),
(6447, 1),
(6459, 0),
(6678, 1),
(6683, 0),
(6740, 1),
(6750, 0),
(6751, 1),
(6780, 0),
(6782, 1),
(6783, 0),
(6831, 1),
(6848, 0),
(6911, 1),
(6916, 0),
(6963, 1),
(6980, 0),
(7018, 1),
(7027, 0),
(7039, 1),
(7042, 0),
(7072, 1),
(7085, 0),
(7141, 1),
(7155, 0),
(7203, 1),
(7223, 0),
(7375, 1),
(7378, 0),
(7379, 1),
(7400, 0),
(7404, 1),
(7405, 0),
(7411, 1),
(7412, 0),
(7414, 1),
(7417, 0),
(7615, 1),
(7673, 0),
(7674, 1),
(7679, 0),
(8202, 1),
(8207, 0),
(8231, 1),
(8238, 0),
(8287, 1),
(8292, 0),
(8293, 1),
(8303, 0),
(8399, 1),
(8432, 0),
(8985, 1),
(8987, 2),
(9000, 1),
(9002, 2),
(9192, 1),
(9196, 2),
(9199, 1),
(9200, 2),
(9202, 1),
(9203, 2),
(9724, 1),
(9726, 2),
(9747, 1),
(9749, 2),
(9799, 1),
(9811, 2),
(9854, 1),
(9855, 2),
(9874, 1),
(9875, 2),
(9888, 1),
(9889, 2),
(9897, 1),
(9899, 2),
(9916, 1),
(9918, 2),
(9923, 1),
(9925, 2),
(9933, 1),
(9934, 2),
(9939, 1),
(9940, 2),
(9961, 1),
(9962, 2),
(9969, 1),
(9971, 2),
(9972, 1),
(9973, 2),
(9977, 1),
(9978, 2),
(9980, 1),
(9981, 2),
(9988, 1),
(9989, 2),
(9993, 1),
(9995, 2),
(10023, 1),
(10024, 2),
(10059, 1),
(10060, 2),
(10061, 1),
(10062, 2),
(10066, 1),
(10069, 2),
(10070, 1),
(10071, 2),
(10132, 1),
(10135, 2),
(10159, 1),
(10160, 2),
(10174, 1),
(10175, 2),
(11034, 1),
(11036, 2),
(11087, 1),
(11088, 2),
(11092, 1),
(11093, 2),
(11502, 1),
(11505, 0),
(11646, 1),
(11647, 0),
(11743, 1),
(11775, 0),
(11903, 1),
(11929, 2),
(11930, 1),
(12019, 2),
(12031, 1),
(12245, 2),
(12271, 1),
(12283, 2),
(12287, 1),
(12329, 2),
(12333, 0),
(12350, 2),
(12352, 1),
(12438, 2),
(12440, 1),
(12442, 0),
(12543, 2),
(12548, 1),
(12591, 2),
(12592, 1),
(12686, 2),
(12687, 1),
(12771, 2),
(12783, 1),
(12830, 2),
(12831, 1),
(12871, 2),
(12879, 1),
(19903, 2),
(19967, 1),
(40956, 2),
(40959, 1),
(42124, 2),
(42127, 1),
(42182, 2),
(42606, 1),
(42610, 0),
(42611, 1),
(42621, 0),
(42653, 1),
(42655, 0),
(42735, 1),
(42737, 0),
(43009, 1),
(43010, 0),
(43013, 1),
(43014, 0),
(43018, 1),
(43019, 0),
(43042, 1),
(43047, 0),
(43051, 1),
(43052, 0),
(43135, 1),
(43137, 0),
(43187, 1),
(43205, 0),
(43231, 1),
(43249, 0),
(43262, 1),
(43263, 0),
(43301, 1),
(43309, 0),
(43334, 1),
(43347, 0),
(43359, 1),
(43388, 2),
(43391, 1),
(43395, 0),
(43442, 1),
(43456, 0),
(43492, 1),
(43493, 0),
(43560, 1),
(43574, 0),
(43586, 1),
(43587, 0),
(43595, 1),
(43597, 0),
(43642, 1),
(43645, 0),
(43695, 1),
(43696, 0),
(43697, 1),
(43700, 0),
(43702, 1),
(43704, 0),
(43709, 1),
(43711, 0),
(43712, 1),
(43713, 0),
(43754, 1),
(43759, 0),
(43764, 1),
(43766, 0),
(44002, 1),
(44010, 0),
(44011, 1),
(44013, 0),
(44031, 1),
(55203, 2),
(63743, 1),
(64109, 2),
(64111, 1),
(64217, 2),
(64285, 1),
(64286, 0),
(65023, 1),
(65039, 0),
(65049, 2),
(65055, 1),
(65071, 0),
(65106, 2),
(65107, 1),
(65126, 2),
(65127, 1),
(65131, 2),
(65278, 1),
(65279, 0),
(65280, 1),
(65376, 2),
(65503, 1),
(65510, 2),
(65528, 1),
(65531, 0),
(66044, 1),
(66045, 0),
(66271, 1),
(66272, 0),
(66421, 1),
(66426, 0),
(68096, 1),
(68099, 0),
(68100, 1),
(68102, 0),
(68107, 1),
(68111, 0),
(68151, 1),
(68154, 0),
(68158, 1),
(68159, 0),
(68324, 1),
(68326, 0),
(68899, 1),
(68903, 0),
(69290, 1),
(69292, 0),
(69445, 1),
(69456, 0),
(69631, 1),
(69634, 0),
(69687, 1),
(69702, 0),
(69758, 1),
(69762, 0),
(69807, 1),
(69818, 0),
(69820, 1),
(69821, 0),
(69836, 1),
(69837, 0),
(69887, 1),
(69890, 0),
(69926, 1),
(69940, 0),
(69956, 1),
(69958, 0),
(70002, 1),
(70003, 0),
(70015, 1),
(70018, 0),
(70066, 1),
(70080, 0),
(70088, 1),
(70092, 0),
(70093, 1),
(70095, 0),
(70187, 1),
(70199, 0),
(70205, 1),
(70206, 0),
(70366, 1),
(70378, 0),
(70399, 1),
(70403, 0),
(70458, 1),
(70460, 0),
(70461, 1),
(70468, 0),
(70470, 1),
(70472, 0),
(70474, 1),
(70477, 0),
(70486, 1),
(70487, 0),
(70497, 1),
(70499, 0),
(70501, 1),
(70508, 0),
(70511, 1),
(70516, 0),
(70708, 1),
(70726, 0),
(70749, 1),
(70750, 0),
(70831, 1),
(70851, 0),
(71086, 1),
(71093, 0),
(71095, 1),
(71104, 0),
(71131, 1),
(71133, 0),
(71215, 1),
(71232, 0),
(71338, 1),
(71351, 0),
(71452, 1),
(71467, 0),
(71723, 1),
(71738, 0),
(71983, 1),
(71989, 0),
(71990, 1),
(71992, 0),
(71994, 1),
(71998, 0),
(71999, 1),
(72000, 0),
(72001, 1),
(72003, 0),
(72144, 1),
(72151, 0),
(72153, 1),
(72160, 0),
(72163, 1),
(72164, 0),
(72192, 1),
(72202, 0),
(72242, 1),
(72249, 0),
(72250, 1),
(72254, 0),
(72262, 1),
(72263, 0),
(72272, 1),
(72283, 0),
(72329, 1),
(72345, 0),
(72750, 1),
(72758, 0),
(72759, 1),
(72767, 0),
(72849, 1),
(72871, 0),
(72872, 1),
(72886, 0),
(73008, 1),
(73014, 0),
(73017, 1),
(73018, 0),
(73019, 1),
(73021, 0),
(73022, 1),
(73029, 0),
(73030, 1),
(73031, 0),
(73097, 1),
(73102, 0),
(73103, 1),
(73105, 0),
(73106, 1),
(73111, 0),
(73458, 1),
(73462, 0),
(78895, 1),
(78904, 0),
(92911, 1),
(92916, 0),
(92975, 1),
(92982, 0),
(94030, 1),
(94031, 0),
(94032, 1),
(94087, 0),
(94094, 1),
(94098, 0),
(94175, 1),
(94179, 2),
(94180, 0),
(94191, 1),
(94193, 2),
(94207, 1),
(100343, 2),
(100351, 1),
(101589, 2),
(101631, 1),
(101640, 2),
(110591, 1),
(110878, 2),
(110927, 1),
(110930, 2),
(110947, 1),
(110951, 2),
(110959, 1),
(111355, 2),
(113820, 1),
(113822, 0),
(113823, 1),
(113827, 0),
(119140, 1),
(119145, 0),
(119148, 1),
(119170, 0),
(119172, 1),
(119179, 0),
(119209, 1),
(119213, 0),
(119361, 1),
(119364, 0),
(121343, 1),
(121398, 0),
(121402, 1),
(121452, 0),
(121460, 1),
(121461, 0),
(121475, 1),
(121476, 0),
(121498, 1),
(121503, 0),
(121504, 1),
(121519, 0),
(122879, 1),
(122886, 0),
(122887, 1),
(122904, 0),
(122906, 1),
(122913, 0),
(122914, 1),
(122916, 0),
(122917, 1),
(122922, 0),
(123183, 1),
(123190, 0),
(123627, 1),
(123631, 0),
(125135, 1),
(125142, 0),
(125251, 1),
(125258, 0),
(126979, 1),
(126980, 2),
(127182, 1),
(127183, 2),
(127373, 1),
(127374, 2),
(127376, 1),
(127386, 2),
(127487, 1),
(127490, 2),
(127503, 1),
(127547, 2),
(127551, 1),
(127560, 2),
(127567, 1),
(127569, 2),
(127583, 1),
(127589, 2),
(127743, 1),
(127776, 2),
(127788, 1),
(127797, 2),
(127798, 1),
(127868, 2),
(127869, 1),
(127891, 2),
(127903, 1),
(127946, 2),
(127950, 1),
(127955, 2),
(127967, 1),
(127984, 2),
(127987, 1),
(127988, 2),
(127991, 1),
(128062, 2),
(128063, 1),
(128064, 2),
(128065, 1),
(128252, 2),
(128254, 1),
(128317, 2),
(128330, 1),
(128334, 2),
(128335, 1),
(128359, 2),
(128377, 1),
(128378, 2),
(128404, 1),
(128406, 2),
(128419, 1),
(128420, 2),
(128506, 1),
(128591, 2),
(128639, 1),
(128709, 2),
(128715, 1),
(128716, 2),
(128719, 1),
(128722, 2),
(128724, 1),
(128727, 2),
(128746, 1),
(128748, 2),
(128755, 1),
(128764, 2),
(128991, 1),
(129003, 2),
(129291, 1),
(129338, 2),
(129339, 1),
(129349, 2),
(129350, 1),
(129400, 2),
(129401, 1),
(129483, 2),
(129484, 1),
(129535, 2),
(129647, 1),
(129652, 2),
(129655, 1),
(129658, 2),
(129663, 1),
(129670, 2),
(129679, 1),
(129704, 2),
(129711, 1),
(129718, 2),
(129727, 1),
(129730, 2),
(129743, 1),
(129750, 2),
(131071, 1),
(173789, 2),
(173823, 1),
(177972, 2),
(177983, 1),
(178205, 2),
(178207, 1),
(183969, 2),
(183983, 1),
(191456, 2),
(194559, 1),
(195101, 2),
(196607, 1),
(201546, 2),
(917504, 1),
(917505, 0),
(917535, 1),
(917631, 0),
(917759, 1),
(917999, 0),
(1114111, 1)
]

/-- The full static `widths` table: (inclusive range end, width) pairs. -/
def widthTable : List (Nat × Nat) := (8, 0) :: (9, 8) :: widthTableTail

/-- The scan loop of `Py_GetWidth`: return the width of the first pair whose
range end is at least `ord`; if the table runs out, the C code returns
`widths[i-1]`, the width of the pair it last stepped past (`prev` here;
the initial value 1 is never returned on a non-empty table whose first
test is reached with `i = 0`). -/
def widthsLookup : Nat → List (Nat × Nat) → Nat → Nat
  | prev, [], _ => prev
  | _, (e, w) :: rest, ord => if ord ≤ e then w else widthsLookup w rest ord

/-- `Py_GetWidth` over an arbitrary table: the two hardwired code points
0x0E and 0x0F return 0 before the table is consulted. -/
def Py_GetWidthT (table : List (Nat × Nat)) (ord : Nat) : Nat :=
  if ord = 0xe ∨ ord = 0xf then 0 else widthsLookup 1 table ord

/-- `Py_GetWidth` of str_util.c, over the static `widths` table. -/
def Py_GetWidth (ord : Nat) : Nat := Py_GetWidthT widthTable ord

/-- The two-byte block of `Py_DecodeOne` (entered when the leading byte
matches 110xxxxx and at least 2 bytes remain): check the continuation
byte and the over-long threshold 0x80. -/
def decodeTail2 (text : List Nat) (pos : Nat) : Nat × Nat :=
  if text.getD (pos + 1) 0 &&& 0xc0 ≠ 0x80 then
    (0x3F, pos + 1)
  else if (text.getD pos 0 &&& 0x1f) <<< 6 ||| (text.getD (pos + 1) 0 &&& 0x3f) < 0x80 then
    (0x3F, pos + 1)
  else
    ((text.getD pos 0 &&& 0x1f) <<< 6 ||| (text.getD (pos + 1) 0 &&& 0x3f), pos + 2)

/-- The three-byte block of `Py_DecodeOne` (leading byte 1110xxxx, at least
3 bytes remain): check both continuation bytes and the threshold 0x800. -/
def decodeTail3 (text : List Nat) (pos : Nat) : Nat × Nat :=
  if text.getD (pos + 1) 0 &&& 0xc0 ≠ 0x80 then
    (0x3F, pos + 1)
  else if text.getD (pos + 2) 0 &&& 0xc0 ≠ 0x80 then
    (0x3F, pos + 1)
  else if (text.getD pos 0 &&& 0x0f) <<< 12 ||| (text.getD (pos + 1) 0 &&& 0x3f) <<< 6 |||
      (text.getD (pos + 2) 0 &&& 0x3f) < 0x800 then
    (0x3F, pos + 1)
  else
    ((text.getD pos 0 &&& 0x0f) <<< 12 ||| (text.getD (pos + 1) 0 &&& 0x3f) <<< 6 |||
      (text.getD (pos + 2) 0 &&& 0x3f), pos + 3)

/-- The four-byte block of `Py_DecodeOne` (leading byte 11110xxx, at least
4 bytes remain): check the three continuation bytes and the threshold
0x10000. -/
def decodeTail4 (text : List Nat) (pos : Nat) : Nat × Nat :=
  if text.getD (pos + 1) 0 &&& 0xc0 ≠ 0x80 then
    (0x3F, pos + 1)
  else if text.getD (pos + 2) 0 &&& 0xc0 ≠ 0x80 then
    (0x3F, pos + 1)
  else if text.getD (pos + 3) 0 &&& 0xc0 ≠ 0x80 then
    (0x3F, pos + 1)
  else if (text.getD pos 0 &&& 0x07) <<< 18 ||| (text.getD (pos + 1) 0 &&& 0x3f) <<< 12 |||
      (text.getD (pos + 2) 0 &&& 0x3f) <<< 6 ||| (text.getD (pos + 3) 0 &&& 0x3f) < 0x10000 then
    (0x3F, pos + 1)
  else
    ((text.getD pos 0 &&& 0x07) <<< 18 ||| (text.getD (pos + 1) 0 &&& 0x3f) <<< 12 |||
      (text.getD (pos + 2) 0 &&& 0x3f) <<< 6 ||| (text.getD (pos + 3) 0 &&& 0x3f), pos + 4)

/-- `Py_DecodeOne`: decode one UTF-8 sequence at `pos`, returning
(code point, next offset); every error path returns (0x3F, pos + 1).
The length guards and leading-byte dispatch appear in the C order. -/
def Py_DecodeOne (text : List Nat) (pos : Nat) : Nat × Nat :=
  if text.getD pos 0 &&& 0x80 = 0 then
    (text.getD pos 0, pos + 1)
  else if text.length - pos < 2 then
    (0x3F, pos + 1)
  else if text.getD pos 0 &&& 0xe0 = 0xc0 then
    decodeTail2 text pos
  else if text.length - pos < 3 then
    (0x3F, pos + 1)
  else if text.getD pos 0 &&& 0xf0 = 0xe0 then
    decodeTail3 text pos
  else if text.length - pos < 4 then
    (0x3F, pos + 1)
  else if text.getD pos 0 &&& 0xf8 = 0xf0 then
    decodeTail4 text pos
  else
    (0x3F, pos + 1)

/-- Malformedness conditions for a two-byte sequence, from the
specification's words: truncation, bad continuation byte, over-long
encoding (value below 0x80). -/
def specMalformed2B (text : List Nat) (pos : Nat) : Bool :=
  decide (text.length < pos + 2) ||
    decide (text.getD (pos + 1) 0 &&& 0xc0 ≠ 0x80) ||
    decide ((text.getD pos 0 &&& 0x1f) <<< 6 ||| (text.getD (pos + 1) 0 &&& 0x3f) < 0x80)

/-- Malformedness conditions for a three-byte sequence, from the
specification's words (over-long means value below 0x800). -/
def specMalformed3B (text : List Nat) (pos : Nat) : Bool :=
  decide (text.length < pos + 3) ||
    decide (text.getD (pos + 1) 0 &&& 0xc0 ≠ 0x80) ||
    decide (text.getD (pos + 2) 0 &&& 0xc0 ≠ 0x80) ||
    decide ((text.getD pos 0 &&& 0x0f) <<< 12 ||| (text.getD (pos + 1) 0 &&& 0x3f) <<< 6 |||
      (text.getD (pos + 2) 0 &&& 0x3f) < 0x800)

/-- Malformedness conditions for a four-byte sequence, from the
specification's words (over-long means value below 0x10000). -/
def specMalformed4B (text : List Nat) (pos : Nat) : Bool :=
  decide (text.length < pos + 4) ||
    decide (text.getD (pos + 1) 0 &&& 0xc0 ≠ 0x80) ||
    decide (text.getD (pos + 2) 0 &&& 0xc0 ≠ 0x80) ||
    decide (text.getD (pos + 3) 0 &&& 0xc0 ≠ 0x80) ||
    decide ((text.getD pos 0 &&& 0x07) <<< 18 ||| (text.getD (pos + 1) 0 &&& 0x3f) <<< 12 |||
      (text.getD (pos + 2) 0 &&& 0x3f) <<< 6 ||| (text.getD (pos + 3) 0 &&& 0x3f) < 0x10000)

/-- Malformedness of the UTF-8 sequence starting at `pos`, written from the
specification's words: classify the leading byte by its high bits
(0xxxxxxx, 110xxxxx, 1110xxxx, 11110xxx); a sequence is malformed when the
buffer is truncated, a continuation byte does not match 10xxxxxx, the
decoded value is an over-long encoding, or the leading byte matches none
of the four patterns. -/
def specMalformedB (text : List Nat) (pos : Nat) : Bool :=
  if text.getD pos 0 &&& 0x80 = 0 then
    false
  else if text.getD pos 0 &&& 0xe0 = 0xc0 then
    specMalformed2B text pos
  else if text.getD pos 0 &&& 0xf0 = 0xe0 then
    specMalformed3B text pos
  else if text.getD pos 0 &&& 0xf8 = 0xf0 then
    specMalformed4B text pos
  else
    true

/-- The while loop of `Py_DecodeOneRight`: step left while the current byte
is a continuation byte.  `none` models falling out of the loop at
position -1 without having written `ret`.  The C guard `pos == pos-4`
(commented `//error` in the source) is kept verbatim; it never holds. -/
def rightLoop (text : List Nat) : Nat → Option (Nat × Int)
  | 0 =>
    if text.getD 0 0 &&& 0xc0 ≠ 0x80 then some ((Py_DecodeOne text 0).1, (0 : Int) - 1)
    else none
  | p + 1 =>
    if text.getD (p + 1) 0 &&& 0xc0 ≠ 0x80 then
      some ((Py_DecodeOne text (p + 1)).1, (p : Int) + 1 - 1)
    else if (p : Int) = (p : Int) - 4 then some (0x3F, (p : Int) - 1)
    else rightLoop text p

/-- The `decode_one_right` entry point: `ret` is initialized to ('?', 0)
and `Py_DecodeOneRight` may return without overwriting it. -/
def decode_one_right (text : List Nat) (pos : Nat) : Nat × Int :=
  match rightLoop text pos with
  | some r => r
  | none => (0x3F, 0)

/-- The backward scan loop of `Py_WithinDoubleByte`: starting from `j`,
step left to the most recent byte below 0x80; the exit value is the
index of that byte, or `line_start - 1` when none is found (matching
the C loop variable at exit, which can be -1). -/
def dbScan (str : List Nat) (ls : Nat) : Nat → Int
  | 0 => if 0 < ls then (ls : Int) - 1 else if str.getD 0 0 < 0x80 then 0 else -1
  | j + 1 =>
    if j + 1 < ls then (ls : Int) - 1
    else if str.getD (j + 1) 0 < 0x80 then (j : Int) + 1
    else dbScan str ls j

/-- Start value of the backward scan: the C loop starts at `pos - 1`,
which is -1 when `pos = 0` (the loop then runs zero iterations). -/
def dbIdx (str : List Nat) (ls : Nat) : Nat → Int
  | 0 => -1
  | p + 1 => dbScan str ls p

/-- `Py_WithinDoubleByte`: 0 = not part of a double-byte pair, 1 = first
half, 2 = second half.  The ambiguous-trailing-byte branch (byte in
[0x40, 0x7f)) recurses at `pos - 1` when the previous byte is >= 0x81.
At `pos = 0` with `line_start > 0` the C code reads `str[-1]`; that
branch collapses to 0 here (all claims assume `line_start <= pos`). -/
def Py_WithinDoubleByte (str : List Nat) (ls : Nat) : Nat → Nat
  | 0 =>
    if 0x40 ≤ str.getD 0 0 ∧ str.getD 0 0 < 0x7f then 0
    else if str.getD 0 0 < 0x80 then 0
    else if ((0 : Int) - dbIdx str ls 0) % 2 = 1 then 1
    else 2
  | p + 1 =>
    if 0x40 ≤ str.getD (p + 1) 0 ∧ str.getD (p + 1) 0 < 0x7f then
      if p + 1 = ls then 0
      else if 0x81 ≤ str.getD p 0 then
        if Py_WithinDoubleByte str ls p = 1 then 2 else 0
      else 0
    else if str.getD (p + 1) 0 < 0x80 then 0
    else if ((p : Int) + 1 - dbIdx str ls (p + 1)) % 2 = 1 then 1
    else 2

/-- `Py_WithinDoubleByte` instrumented with a recursion budget: `none`
means the call tree needed more than `fuel` nested calls. -/
def withinDBF (str : List Nat) (ls : Nat) : Nat → Nat → Option Nat
  | 0, _ => none
  | _ + 1, 0 =>
    some (if 0x40 ≤ str.getD 0 0 ∧ str.getD 0 0 < 0x7f then 0
      else if str.getD 0 0 < 0x80 then 0
      else if ((0 : Int) - dbIdx str ls 0) % 2 = 1 then 1
      else 2)
  | f + 1, p + 1 =>
    if 0x40 ≤ str.getD (p + 1) 0 ∧ str.getD (p + 1) 0 < 0x7f then
      if p + 1 = ls then some 0
      else if 0x81 ≤ str.getD p 0 then
        match withinDBF str ls f p with
        | none => none
        | some r => some (if r = 1 then 2 else 0)
      else some 0
    else if str.getD (p + 1) 0 < 0x80 then some 0
    else if ((p : Int) + 1 - dbIdx str ls (p + 1)) % 2 = 1 then some 1
    else some 2

/-- The `within_double_byte` binding: bounds checks raise IndexError
before `Py_WithinDoubleByte` is entered. -/
def within_double_byte (str : List Nat) (line_start pos : Int) : Except String Nat :=
  if line_start < 0 ∨ (str.length : Int) ≤ line_start then
    Except.error "is_wide_char: Argument line_start is outside of string."
  else if pos < 0 ∨ (str.length : Int) ≤ pos then
    Except.error "is_wide_char: Argument pos is outside of string."
  else if pos < line_start then
    Except.error "is_wide_char: Argument pos is before line_start."
  else
    Except.ok (Py_WithinDoubleByte str line_start.toNat pos.toNat)

/-- Whether an `Except` result is an error. -/
def isErr : Except String Nat → Bool
  | Except.error _ => true
  | Except.ok _ => false

/-- `get_byte_encoding`: render the current mode as its name. -/
def get_byte_encoding : Enc → String
  | Enc.utf8 => "utf8"
  | Enc.wide => "wide"
  | Enc.narrow => "narrow"

/-- `set_byte_encoding`, state-passing: given the requested name and the
current mode, return (error message if any, new mode); on an
unrecognized name a ValueError is raised and the mode is unchanged. -/
def set_byte_encoding (enc : String) (cur : Enc) : Option String × Enc :=
  if enc = "utf8" then (none, Enc.utf8)
  else if enc = "wide" then (none, Enc.wide)
  else if enc = "narrow" then (none, Enc.narrow)
  else (some "Unknown encoding.", cur)

/-- The UTF-8 loop of `Py_CalcWidth`: sum widths decoding forward from `i`
until `i >= e`.  The loop is given fuel `e - i`: each decode advances by
at least one byte (decodeOne_lt_snd below), so this many iterations
always suffice and the fueled function equals the C loop. -/
def u8WidthF (str : List Nat) (e : Nat) : Nat → Nat → Nat
  | 0, _ => 0
  | f + 1, i =>
    if i < e then Py_GetWidth (Py_DecodeOne str i).1 + u8WidthF str e f (Py_DecodeOne str i).2
    else 0

/-- The UTF-8 loop of `Py_CalcTextPos`, fueled like `u8WidthF`: stop at the
first character whose width would push the column past `pref`. -/
def u8TextPosF (str : List Nat) (e pref : Nat) : Nat → Nat → Nat → Nat × Nat
  | 0, i, scols => (i, scols)
  | f + 1, i, scols =>
    if i < e then
      if pref < Py_GetWidth (Py_DecodeOne str i).1 + scols then (i, scols)
      else u8TextPosF str e pref f (Py_DecodeOne str i).2 (scols + Py_GetWidth (Py_DecodeOne str i).1)
    else (i, scols)

/-- The offset at which the forward decoding walk from `i` first reaches or
passes `e` (the loop variable of `Py_CalcWidth` at exit). -/
def u8FinalF (str : List Nat) (e : Nat) : Nat → Nat → Nat
  | 0, i => i
  | f + 1, i => if i < e then u8FinalF str e f (Py_DecodeOne str i).2 else i

/-- The code-point-sequence loop of `Py_CalcWidth` (PyUnicode path):
index steps by one, fuel `e - i` is exact. -/
def ustrWidthF (u : List Nat) (e : Nat) : Nat → Nat → Nat
  | 0, _ => 0
  | f + 1, i => if i < e then Py_GetWidth (u.getD i 0) + ustrWidthF u e f (i + 1) else 0

/-- The code-point-sequence loop of `Py_CalcTextPos` (PyUnicode path). -/
def ustrTextPosF (u : List Nat) (e pref : Nat) : Nat → Nat → Nat → Nat × Nat
  | 0, i, scols => (i, scols)
  | f + 1, i, scols =>
    if i < e then
      if pref < Py_GetWidth (u.getD i 0) + scols then (i, scols)
      else ustrTextPosF u e pref f (i + 1) (scols + Py_GetWidth (u.getD i 0))
    else (i, scols)

/-- `Py_CalcWidth` on an encoded byte string, dispatching on the mode:
UTF-8 sums decoded widths; wide/narrow return `end - start`. -/
def Py_CalcWidth (enc : Enc) (str : List Nat) (s e : Nat) : Nat :=
  match enc with
  | Enc.utf8 => u8WidthF str e (e - s) s
  | _ => e - s

/-- `Py_CalcTextPos` on an encoded byte string: UTF-8 walks forward;
wide/narrow land at `start + pref_col` capped at `end`, and wide mode
steps back one byte off the second half of a double-byte pair. -/
def Py_CalcTextPos (enc : Enc) (str : List Nat) (s e pref : Nat) : Nat × Nat :=
  match enc with
  | Enc.utf8 => u8TextPosF str e pref (e - s) s 0
  | Enc.wide =>
    if e ≤ s + pref then (e, e - s)
    else if Py_WithinDoubleByte str s (s + pref) = 2 then (s + pref - 1, s + pref - 1 - s)
    else (s + pref, s + pref - s)
  | Enc.narrow =>
    if e ≤ s + pref then (e, e - s)
    else (s + pref, s + pref - s)

/-- `Py_CalcWidth` on already-decoded text (PyUnicode path). -/
def Py_CalcWidthU (u : List Nat) (s e : Nat) : Nat := ustrWidthF u e (e - s) s

/-- `Py_CalcTextPos` on already-decoded text (PyUnicode path). -/
def Py_CalcTextPosU (u : List Nat) (s e pref : Nat) : Nat × Nat := ustrTextPosF u e pref (e - s) s 0

/-- Any value produced by `widthsLookup` on a non-empty list is one of the
widths stored in the list. -/
lemma widthsLookup_mem (P : Nat → Prop) :
    ∀ (l : List (Nat × Nat)) (prev ord : Nat), l ≠ [] → (∀ p ∈ l, P p.2) →
      P (widthsLookup prev l ord) := by
  intro l
  induction l with
  | nil => intro prev ord h _; exact absurd rfl h
  | cons hd tl ih =>
    intro prev ord _ hall
    obtain ⟨e, w⟩ := hd
    simp only [widthsLookup]
    by_cases hle : ord ≤ e
    · rw [if_pos hle]
      exact hall (e, w) (List.mem_cons_self _ _)
    · rw [if_neg hle]
      cases tl with
      | nil => simpa [widthsLookup] using hall (e, w) (List.mem_cons_self _ _)
      | cons hd2 tl2 =>
        exact ih w ord (by simp) (fun p hp => hall p (List.mem_cons_of_mem _ hp))

/-- Forward progress of the two-byte block. -/
lemma decodeTail2_lt_snd (text : List Nat) (pos : Nat) : pos < (decodeTail2 text pos).2 := by
  unfold decodeTail2
  split_ifs <;> simp

/-- Forward progress of the three-byte block. -/
lemma decodeTail3_lt_snd (text : List Nat) (pos : Nat) : pos < (decodeTail3 text pos).2 := by
  unfold decodeTail3
  split_ifs <;> simp

/-- Forward progress of the four-byte block. -/
lemma decodeTail4_lt_snd (text : List Nat) (pos : Nat) : pos < (decodeTail4 text pos).2 := by
  unfold decodeTail4
  split_ifs <;> simp

/-- Forward progress: `Py_DecodeOne` always returns a next offset strictly
greater than `pos`, on every input (malformed ones included). -/
lemma decodeOne_lt_snd (text : List Nat) (pos : Nat) : pos < (Py_DecodeOne text pos).2 := by
  unfold Py_DecodeOne
  split_ifs <;>
    first
      | exact decodeTail2_lt_snd text pos
      | exact decodeTail3_lt_snd text pos
      | exact decodeTail4_lt_snd text pos
      | simp

/-- Every width stored past the first two pairs of the static table is 0, 1
or 2 (established by evaluating a Boolean scan of the table). -/
lemma tail_widths_ok : ∀ p ∈ widthTableTail, p.2 = 0 ∨ p.2 = 1 ∨ p.2 = 2 := by
  have h : widthTableTail.all
      (fun p => decide (p.2 = 0) || decide (p.2 = 1) || decide (p.2 = 2)) = true := rfl
  intro p hp
  have h2 := List.all_eq_true.mp h p hp
  simpa [or_assoc] using h2

/-- Counterexample to claim C1 as stated: the width table maps code point 9
(TAB) to width 8, so the returned width is not always in {0, 1, 2}. -/
theorem width_classifier_cex :
    Py_GetWidth 9 = 8 ∧ ¬(Py_GetWidth 9 = 0 ∨ Py_GetWidth 9 = 1 ∨ Py_GetWidth 9 = 2) := by
  decide

/-- Claim C1 (amended): for every code point other than 9 the width
classifier returns a value in {0, 1, 2} (code point 9, TAB, returns 8),
and for the two hardwired code points 0x0E and 0x0F it returns 0
regardless of the table contents. -/
theorem width_classifier_range :
    (∀ (t : List (Nat × Nat)) (ord : Nat), ord = 0xe ∨ ord = 0xf → Py_GetWidthT t ord = 0) ∧
    (∀ ord : Nat, ord ≠ 9 → Py_GetWidth ord = 0 ∨ Py_GetWidth ord = 1 ∨ Py_GetWidth ord = 2) ∧
    Py_GetWidth 9 = 8 := by
  refine ⟨?_, ?_, by decide⟩
  · intro t ord h
    unfold Py_GetWidthT
    rw [if_pos h]
  · intro ord h9
    unfold Py_GetWidth Py_GetWidthT
    by_cases he : ord = 0xe ∨ ord = 0xf
    · rw [if_pos he]
      exact Or.inl rfl
    · rw [if_neg he]
      unfold widthTable
      simp only [widthsLookup]
      by_cases h8 : ord ≤ 8
      · rw [if_pos h8]
        exact Or.inl rfl
      · rw [if_neg h8]
        by_cases h9' : ord ≤ 9
        · exact absurd (by omega : ord = 9) h9
        · rw [if_neg h9']
          exact widthsLookup_mem (fun w => w = 0 ∨ w = 1 ∨ w = 2) widthTableTail 8 ord
            (by decide) tail_widths_ok

/-- Witness for `width_classifier_range`: instantiated at the empty table
with ordinal 0x0E and at ordinal 65. -/
theorem width_classifier_range_witness :
    Py_GetWidthT [] 0xe = 0 ∧ (Py_GetWidth 65 = 0 ∨ Py_GetWidth 65 = 1 ∨ Py_GetWidth 65 = 2) :=
  ⟨width_classifier_range.1 [] 0xe (Or.inl rfl), width_classifier_range.2.1 65 (by decide)⟩

/-- If the two-byte preconditions of the spec are violated (with at least
two bytes available), the two-byte block returns the marker and pos+1. -/
lemma decodeTail2_spec (text : List Nat) (pos : Nat) (hlen : ¬(text.length - pos < 2))
    (hm : specMalformed2B text pos = true) : decodeTail2 text pos = (0x3F, pos + 1) := by
  simp only [specMalformed2B, Bool.or_eq_true, decide_eq_true_eq, or_assoc] at hm
  unfold decodeTail2
  split_ifs with h1 h2
  · rfl
  · rfl
  · rcases hm with h | h | h
    · omega
    · exact absurd h h1
    · exact absurd h h2

/-- Same for the three-byte block. -/
lemma decodeTail3_spec (text : List Nat) (pos : Nat) (hlen : ¬(text.length - pos < 3))
    (hm : specMalformed3B text pos = true) : decodeTail3 text pos = (0x3F, pos + 1) := by
  simp only [specMalformed3B, Bool.or_eq_true, decide_eq_true_eq, or_assoc] at hm
  unfold decodeTail3
  split_ifs with h1 h2 h3
  · rfl
  · rfl
  · rfl
  · rcases hm with h | h | h | h
    · omega
    · exact absurd h h1
    · exact absurd h h2
    · exact absurd h h3

/-- Same for the four-byte block. -/
lemma decodeTail4_spec (text : List Nat) (pos : Nat) (hlen : ¬(text.length - pos < 4))
    (hm : specMalformed4B text pos = true) : decodeTail4 text pos = (0x3F, pos + 1) := by
  simp only [specMalformed4B, Bool.or_eq_true, decide_eq_true_eq, or_assoc] at hm
  unfold decodeTail4
  split_ifs with h1 h2 h3 h4
  · rfl
  · rfl
  · rfl
  · rfl
  · rcases hm with h | h | h | h | h
    · omega
    · exact absurd h h1
    · exact absurd h h2
    · exact absurd h h3
    · exact absurd h h4

/-- Claim C2: at every in-bounds position where the forward decoder meets a
malformed sequence (truncation, bad continuation byte, over-long encoding
or invalid leading-byte pattern), it returns the replacement marker 0x3F
and advances by exactly one byte. -/
theorem decode_forward_malformed (text : List Nat) (pos : Nat) (_hpos : pos < text.length)
    (hm : specMalformedB text pos = true) : Py_DecodeOne text pos = (0x3F, pos + 1) := by
  unfold Py_DecodeOne
  unfold specMalformedB at hm
  split_ifs at hm ⊢ <;>
    first
      | rfl
      | simp at hm
      | exact decodeTail2_spec text pos (by assumption) hm
      | exact decodeTail3_spec text pos (by assumption) hm
      | exact decodeTail4_spec text pos (by assumption) hm

/-- Witness for `decode_forward_malformed`: the truncated two-byte lead
[0xC0] at position 0. -/
theorem decode_forward_malformed_witness :
    0 < ([0xC0] : List Nat).length ∧ specMalformedB [0xC0] 0 = true ∧
      Py_DecodeOne [0xC0] 0 = (0x3F, 1) :=
  ⟨by decide, by decide, decode_forward_malformed [0xC0] 0 (by decide) (by decide)⟩

/-- Whenever the backward-scan loop returns a result (it found a
non-continuation byte at or below the start position), the reported
previous offset is strictly below the start position. -/
lemma rightLoop_some_lt (text : List Nat) :
    ∀ (p : Nat) (r : Nat × Int), rightLoop text p = some r → r.2 < (p : Int) := by
  intro p
  induction p with
  | zero =>
    intro r h
    unfold rightLoop at h
    split_ifs at h
    cases h
    show (0 : Int) - 1 < ((0 : Nat) : Int)
    norm_num
  | succ p ih =>
    intro r h
    unfold rightLoop at h
    split_ifs at h with h1 h2
    · cases h
      show (p : Int) + 1 - 1 < ((p + 1 : Nat) : Int)
      push_cast
      omega
    · exact absurd h2 (by omega)
    · have hlt := ih r h
      push_cast
      omega

/-- The backward-scan loop falls off the front of the buffer (returning
`none`) only when byte 0 is itself a continuation byte. -/
lemma rightLoop_none_cont (text : List Nat) :
    ∀ p : Nat, rightLoop text p = none → text.getD 0 0 &&& 0xc0 = 0x80 := by
  intro p
  induction p with
  | zero =>
    intro h
    unfold rightLoop at h
    split_ifs at h with h1
    exact not_not.mp h1
  | succ p ih =>
    intro h
    unfold rightLoop at h
    split_ifs at h with h1 h2
    exact ih h

/-- Counterexample to claim C3 as stated: on the single continuation byte
buffer [0x80] at position 0, decode_one_right returns the caller-initialized
result ('?', 0), so the previous offset equals the input position. -/
theorem decode_progress_cex :
    (0 : Nat) < ([0x80] : List Nat).length ∧ decode_one_right [0x80] 0 = (0x3F, 0) ∧
      ¬((decode_one_right [0x80] 0).2 < (0 : Int)) := by
  decide

/-- Claim C3 (amended): the forward decoder always returns a next offset
strictly greater than pos; the backward decoder returns a previous offset
strictly less than pos except in the degenerate case pos = 0 with byte 0 a
continuation byte, where the loop exits without writing the result and the
initial value ('?', 0) is returned, leaving the offset equal to pos. -/
theorem decode_progress (text : List Nat) (pos : Nat) (_hpos : pos < text.length) :
    pos < (Py_DecodeOne text pos).2 ∧
      (0 < pos ∨ text.getD 0 0 &&& 0xc0 ≠ 0x80 → (decode_one_right text pos).2 < (pos : Int)) := by
  refine ⟨decodeOne_lt_snd text pos, ?_⟩
  intro hc
  unfold decode_one_right
  cases hr : rightLoop text pos with
  | some r =>
    simpa using rightLoop_some_lt text pos r hr
  | none =>
    have hcont := rightLoop_none_cont text pos hr
    rcases hc with h | h
    · show (0 : Int) < (pos : Int)
      exact_mod_cast h
    · exact absurd hcont h

/-- Witness for `decode_progress`: the one-byte buffer [0x41] at position 0. -/
theorem decode_progress_witness :
    (0 : Nat) < ([0x41] : List Nat).length ∧ 0 < (Py_DecodeOne [0x41] 0).2 ∧
      (decode_one_right [0x41] 0).2 < (0 : Int) :=
  ⟨by decide, (decode_progress [0x41] 0 (by decide)).1,
    (decode_progress [0x41] 0 (by decide)).2 (Or.inr (by decide))⟩

/-- Claim C4, evaluated at the failing input: on [0x41, 0x80, 0x80, 0x80,
0x80, 0x80] at position 5 the backward decoder takes five continuation
steps (the guard `pos == pos-4`, meant to bound the scan at four steps, is
identically false), decodes from offset 0 and returns (0x41, -1) — an
offset below the lowest value a four-step bound could produce. -/
theorem backward_scan_unbounded :
    decode_one_right [0x41, 0x80, 0x80, 0x80, 0x80, 0x80] 5 = (0x41, -1) ∧
      (decode_one_right [0x41, 0x80, 0x80, 0x80, 0x80, 0x80] 5).2 < (5 : Int) - 4 - 1 := by
  decide

/-- Claim C7: the within_double_byte entry point reports an error exactly
when line_start or pos lies outside [0, len) or pos < line_start; the
byte scanner itself is entered (returning a value to the caller) only
when all bounds checks pass. -/
theorem within_double_byte_bounds (str : List Nat) (line_start pos : Int) :
    isErr (within_double_byte str line_start pos) = true ↔
      (line_start < 0 ∨ (str.length : Int) ≤ line_start ∨ pos < 0 ∨
        (str.length : Int) ≤ pos ∨ pos < line_start) := by
  unfold within_double_byte
  split_ifs with h1 h2 h3 <;> simp [isErr] <;> first | tauto | omega

/-- Claim C8: set_byte_encoding with an unrecognized name fails with a
ValueError and leaves the mode unchanged (a subsequent get_byte_encoding
reports the previous value); each of the three recognized names succeeds
and sets the mode to that value. -/
theorem set_encoding_behavior (name : String) (cur : Enc) :
    ((name ≠ "utf8" ∧ name ≠ "wide" ∧ name ≠ "narrow") →
      (set_byte_encoding name cur).1 = some "Unknown encoding." ∧
        get_byte_encoding (set_byte_encoding name cur).2 = get_byte_encoding cur) ∧
    ((name = "utf8" ∨ name = "wide" ∨ name = "narrow") →
      (set_byte_encoding name cur).1 = none ∧
        get_byte_encoding (set_byte_encoding name cur).2 = name) := by
  constructor
  · rintro ⟨h1, h2, h3⟩
    unfold set_byte_encoding
    rw [if_neg h1, if_neg h2, if_neg h3]
    exact ⟨rfl, rfl⟩
  · rintro (h | h | h) <;> subst h <;>
      simp [set_byte_encoding, get_byte_encoding]

/-- Witness for `set_encoding_behavior`: the unrecognized name "bogus"
with current mode wide, and the recognized name "narrow". -/
theorem set_encoding_behavior_witness :
    ((set_byte_encoding "bogus" Enc.wide).1 = some "Unknown encoding." ∧
      get_byte_encoding (set_byte_encoding "bogus" Enc.wide).2 = get_byte_encoding Enc.wide) ∧
    ((set_byte_encoding "narrow" Enc.utf8).1 = none ∧
      get_byte_encoding (set_byte_encoding "narrow" Enc.utf8).2 = "narrow") :=
  ⟨(set_encoding_behavior "bogus" Enc.wide).1 (by decide),
    (set_encoding_behavior "narrow" Enc.utf8).2 (Or.inr (Or.inr rfl))⟩

/-- The backward scan never returns an index below `line_start - 1`. -/
lemma dbScan_ge (str : List Nat) (ls : Nat) : ∀ j, (ls : Int) - 1 ≤ dbScan str ls j := by
  intro j
  induction j with
  | zero =>
    unfold dbScan
    split_ifs <;> omega
  | succ j ih =>
    unfold dbScan
    split_ifs
    · omega
    · omega
    · exact ih

/-- The backward scan returns either an index at most its start, or the
exhausted-loop value `line_start - 1`. -/
lemma dbScan_le (str : List Nat) (ls : Nat) :
    ∀ j, dbScan str ls j ≤ (j : Int) ∨ dbScan str ls j = (ls : Int) - 1 := by
  intro j
  induction j with
  | zero =>
    unfold dbScan
    split_ifs
    · exact Or.inr rfl
    · exact Or.inl (by omega)
    · exact Or.inl (by omega)
  | succ j ih =>
    unfold dbScan
    split_ifs
    · exact Or.inr rfl
    · exact Or.inl (by omega)
    · rcases ih with h | h
      · exact Or.inl (by omega)
      · exact Or.inr h
/-- Starting the backward scan below `line_start` yields the exhausted
value immediately. -/
lemma dbScan_lt (str : List Nat) (ls j : Nat) (h : j < ls) :
    dbScan str ls j = (ls : Int) - 1 := by
  cases j with
  | zero =>
    unfold dbScan
    rw [if_pos (by omega)]
  | succ q =>
    unfold dbScan
    rw [if_pos h]

/-- When the scan does not stop at `j` (in range, byte at least 0x80), its
value is the scan from one position further left, i.e. the start value
`dbIdx` for position `j`. -/
lemma dbScan_step (str : List Nat) (ls j : Nat) (h1 : ¬(j < ls))
    (h2 : ¬(str.getD j 0 < 0x80)) : dbScan str ls j = dbIdx str ls j := by
  cases j with
  | zero =>
    unfold dbScan dbIdx
    rw [if_neg h1, if_neg h2]
  | succ q =>
    unfold dbScan dbIdx
    rw [if_neg h1, if_neg h2]

/-- `Py_WithinDoubleByte` never reports "second half" at the line start. -/
lemma withinDB_self (str : List Nat) (ls : Nat) : Py_WithinDoubleByte str ls ls ≠ 2 := by
  cases ls with
  | zero =>
    unfold Py_WithinDoubleByte
    split_ifs with h1 h2 h3
    · simp
    · simp
    · simp
    · exact absurd (show ((0 : Int) - dbIdx str 0 0) % 2 = 1 from by norm_num [dbIdx]) h3
  | succ q =>
    unfold Py_WithinDoubleByte
    split_ifs with h1 h2 h3 h4 h5 h6
    · simp
    · exact absurd rfl h2
    · simp
    · simp
    · simp
    · simp
    · have hscan : dbIdx str (q + 1) (q + 1) = (q : Int) := by
        show dbScan str (q + 1) q = (q : Int)
        rw [dbScan_lt str (q + 1) q (by omega)]
        push_cast
        ring
      rw [hscan] at h6
      exact absurd (by omega) h6

/-- Parity case of the step-back property: if the parity branch of
`Py_WithinDoubleByte` classified position `p + 1` as a second half, then
position `p` is classified as a first half. -/
lemma withinDB_two_prev_parity (str : List Nat) (ls p : Nat) (hls : ls ≤ p + 1)
    (hbyte : ¬(str.getD (p + 1) 0 < 0x80))
    (hpar : ¬(((p : Int) + 1 - dbIdx str ls (p + 1)) % 2 = 1)) :
    Py_WithinDoubleByte str ls p = 1 := by
  have hidx : dbIdx str ls (p + 1) = dbScan str ls p := rfl
  rw [hidx] at hpar
  have hge := dbScan_ge str ls p
  have hle := dbScan_le str ls p
  have hi0p : dbScan str ls p ≤ (p : Int) := by
    rcases hle with h | h
    · exact h
    · rw [h]; omega
  have hne : dbScan str ls p ≠ (p : Int) := by
    intro hE
    rw [hE] at hpar
    omega
  have hplt : ¬(p < ls) := by
    intro hlt
    have hv := dbScan_lt str ls p hlt
    rw [hv] at hne hpar
    omega
  have hbp : ¬(str.getD p 0 < 0x80) := by
    intro hb
    apply hne
    cases p with
    | zero =>
      unfold dbScan
      rw [if_neg hplt, if_pos hb]
      norm_num
    | succ q =>
      unfold dbScan
      rw [if_neg hplt, if_pos hb]
      push_cast
      ring
  have hstep : dbScan str ls p = dbIdx str ls p := dbScan_step str ls p hplt hbp
  have hamb : ¬(0x40 ≤ str.getD p 0 ∧ str.getD p 0 < 0x7f) := fun hA => hbp (by omega)
  cases p with
  | zero =>
    unfold Py_WithinDoubleByte
    rw [if_neg hamb, if_neg hbp]
    have hz : dbIdx str ls 0 = -1 := rfl
    rw [if_pos (by rw [hz]; norm_num)]
  | succ q =>
    unfold Py_WithinDoubleByte
    rw [if_neg hamb, if_neg hbp]
    rw [if_pos ?hcond]
    case hcond =>
      have hq : dbIdx str ls (q + 1) = dbScan str ls (q + 1) := hstep.symm
      rw [hq]
      have h2 : ((q : Int) + 1 + 1 - dbScan str ls (q + 1)) % 2 = 0 := by
        push_cast at hpar ⊢
        omega
      omega

/-- If `Py_WithinDoubleByte` classifies a position as the second half of a
double-byte pair, it classifies the preceding position as the first half. -/
lemma withinDB_two_prev (str : List Nat) (ls p : Nat) (hls : ls ≤ p + 1)
    (h2 : Py_WithinDoubleByte str ls (p + 1) = 2) : Py_WithinDoubleByte str ls p = 1 := by
  unfold Py_WithinDoubleByte at h2
  split_ifs at h2 with h1 hb hc hd he hf
  · exact hd
  · simp at h2
  · exact withinDB_two_prev_parity str ls p hls he hf

/-- Counterexample to claim C9 as stated: in WIDE mode, when the landing
offset is capped at the span end `e`, no shift is applied, and the
returned offset can fall on the second half of a double-byte pair. -/
theorem wide_text_pos_cex :
    Py_CalcTextPos Enc.wide [0xA1, 0xA1, 0xA1, 0xA1] 0 3 3 = (3, 3) ∧
      Py_WithinDoubleByte [0xA1, 0xA1, 0xA1, 0xA1] 0 3 = 2 := by
  decide

/-- Claim C9 (amended): in WIDE or NARROW mode `calc_text_pos` lands at
`start + target_column`, capped at the span end (where the cap `e` is
returned as-is, even if `e` itself splits a pair); below the cap, NARROW
returns the landing point unchanged while WIDE steps one byte left off
the second half of a double-byte pair, so the sub-cap offset never splits
a double-width character; in particular on a 4-byte buffer of two
double-byte characters the search for column 1 returns (0, 0). -/
theorem wide_text_pos (str : List Nat) (s e pref : Nat) :
    (∀ enc : Enc, enc ≠ Enc.utf8 → e ≤ s + pref →
      Py_CalcTextPos enc str s e pref = (e, e - s)) ∧
    (s + pref < e → Py_CalcTextPos Enc.narrow str s e pref = (s + pref, pref)) ∧
    (s + pref < e →
      Py_CalcTextPos Enc.wide str s e pref =
        (if Py_WithinDoubleByte str s (s + pref) = 2 then (s + pref - 1, pref - 1)
          else (s + pref, pref)) ∧
      Py_WithinDoubleByte str s (Py_CalcTextPos Enc.wide str s e pref).1 ≠ 2) ∧
    Py_CalcTextPos Enc.wide [0xA1, 0xA1, 0xA1, 0xA1] 0 4 1 = (0, 0) := by
  refine ⟨?_, ?_, ?_, by decide⟩
  · intro enc hne hcap
    cases enc with
    | utf8 => exact absurd rfl hne
    | wide =>
      simp only [Py_CalcTextPos]
      rw [if_pos hcap]
    | narrow =>
      simp only [Py_CalcTextPos]
      rw [if_pos hcap]
  · intro h
    simp only [Py_CalcTextPos]
    rw [if_neg (by omega)]
    rw [show s + pref - s = pref by omega]
  · intro h
    have heq : Py_CalcTextPos Enc.wide str s e pref =
        (if Py_WithinDoubleByte str s (s + pref) = 2 then (s + pref - 1, pref - 1)
          else (s + pref, pref)) := by
      simp only [Py_CalcTextPos]
      rw [if_neg (by omega)]
      by_cases hw : Py_WithinDoubleByte str s (s + pref) = 2
      · rw [if_pos hw, if_pos hw, show s + pref - 1 - s = pref - 1 by omega]
      · rw [if_neg hw, if_neg hw, show s + pref - s = pref by omega]
    refine ⟨heq, ?_⟩
    rw [heq]
    by_cases hw : Py_WithinDoubleByte str s (s + pref) = 2
    · rw [if_pos hw]
      have hp1 : 1 ≤ pref := by
        by_contra hp0
        have hz : pref = 0 := by omega
        rw [hz, Nat.add_zero] at hw
        exact withinDB_self str s hw
      have h2' : Py_WithinDoubleByte str s (s + pref - 1 + 1) = 2 := by
        rw [show s + pref - 1 + 1 = s + pref by omega]
        exact hw
      have hone := withinDB_two_prev str s (s + pref - 1) (by omega) h2'
      show Py_WithinDoubleByte str s (s + pref - 1) ≠ 2
      rw [hone]
      norm_num
    · rw [if_neg hw]
      exact hw

/-- Witness for `wide_text_pos`: the two-double-byte-character buffer of
the specification's concrete scenario, searching for column 1. -/
theorem wide_text_pos_witness :
    Py_CalcTextPos Enc.narrow [0xA1, 0xA1, 0xA1, 0xA1] 0 4 1 = (0 + 1, 1) ∧
      Py_WithinDoubleByte [0xA1, 0xA1, 0xA1, 0xA1] 0
        (Py_CalcTextPos Enc.wide [0xA1, 0xA1, 0xA1, 0xA1] 0 4 1).1 ≠ 2 :=
  ⟨(wide_text_pos [0xA1, 0xA1, 0xA1, 0xA1] 0 4 1).2.1 (by decide),
    ((wide_text_pos [0xA1, 0xA1, 0xA1, 0xA1] 0 4 1).2.2.1 (by decide)).2⟩

/-- On a byte at least 0x80 the scanner takes the parity branch. -/
lemma withinDB_hi (str : List Nat) (ls p : Nat) (hb : 0x80 ≤ str.getD p 0) :
    Py_WithinDoubleByte str ls p =
      if ((p : Int) - dbIdx str ls p) % 2 = 1 then 1 else 2 := by
  have hamb : ¬(0x40 ≤ str.getD p 0 ∧ str.getD p 0 < 0x7f) := by
    intro hA
    omega
  have hlt : ¬(str.getD p 0 < 0x80) := by omega
  cases p with
  | zero =>
    unfold Py_WithinDoubleByte
    rw [if_neg hamb, if_neg hlt]
    norm_num
  | succ q =>
    unfold Py_WithinDoubleByte
    rw [if_neg hamb, if_neg hlt]
    push_cast
    rfl

/-- On a byte at least 0x80 one unit of fuel suffices: the parity branch
makes no recursive call. -/
lemma withinDBF_hi (str : List Nat) (ls p : Nat) (hb : 0x80 ≤ str.getD p 0) :
    withinDBF str ls 1 p = some (Py_WithinDoubleByte str ls p) := by
  rw [withinDB_hi str ls p hb]
  have hamb : ¬(0x40 ≤ str.getD p 0 ∧ str.getD p 0 < 0x7f) := by
    intro hA
    omega
  have hlt : ¬(str.getD p 0 < 0x80) := by omega
  cases p with
  | zero =>
    show withinDBF str ls (0 + 1) 0 = _
    simp only [withinDBF]
    rw [if_neg hamb, if_neg hlt]
    norm_num
  | succ q =>
    show withinDBF str ls (0 + 1) (q + 1) = _
    simp only [withinDBF]
    rw [if_neg hamb, if_neg hlt]
    push_cast
    split_ifs <;> rfl

/-- Claim C10: two units of recursion budget always suffice for the
double-byte scanner (the self-call happens only on a position whose byte
is at least 0x81, which cannot satisfy the ambiguous-byte test
0x40 <= b < 0x7f, so the nested call is non-recursive), and every call
returns a value in {0, 1, 2}. -/
theorem within_double_byte_depth (str : List Nat) (ls pos : Nat) :
    withinDBF str ls 2 pos = some (Py_WithinDoubleByte str ls pos) ∧
      (Py_WithinDoubleByte str ls pos = 0 ∨ Py_WithinDoubleByte str ls pos = 1 ∨
        Py_WithinDoubleByte str ls pos = 2) := by
  constructor
  · cases pos with
    | zero =>
      show withinDBF str ls (1 + 1) 0 = _
      simp only [withinDBF]
      unfold Py_WithinDoubleByte
      rfl
    | succ p =>
      show withinDBF str ls (1 + 1) (p + 1) = _
      simp only [withinDBF]
      unfold Py_WithinDoubleByte
      split_ifs with h1 h2 h3 h4
      · rfl
      · rw [withinDBF_hi str ls p (by omega)]
        show some (if Py_WithinDoubleByte str ls p = 1 then 2 else 0) = some 2
        rw [if_pos h4]
      · rw [withinDBF_hi str ls p (by omega)]
        show some (if Py_WithinDoubleByte str ls p = 1 then 2 else 0) = some 0
        rw [if_neg h4]
      · rfl
      · rfl
      · rfl
      · rfl
  · cases pos with
    | zero =>
      unfold Py_WithinDoubleByte
      split_ifs <;> simp
    | succ p =>
      unfold Py_WithinDoubleByte
      split_ifs <;> simp

/-- Searching for exactly the accumulated width of the remaining span lands
at the loop-exit offset: as long as the decoding walk from `i` ends
exactly at `e`, the position search with the span's total width returns
`(e, total)`.  Stated over the fueled loops with any sufficient fuel. -/
lemma u8_exact_search (str : List Nat) (e : Nat) :
    ∀ (f i scols : Nat), e - i ≤ f → u8FinalF str e f i = e →
      u8TextPosF str e (scols + u8WidthF str e f i) f i scols =
        (e, scols + u8WidthF str e f i) := by
  intro f
  induction f with
  | zero =>
    intro i scols hf hfin
    simp only [u8FinalF] at hfin
    subst hfin
    simp only [u8WidthF, u8TextPosF, Nat.add_zero]
  | succ f ih =>
    intro i scols hf hfin
    by_cases hi : i < e
    · have hlt := decodeOne_lt_snd str i
      have hfe : e - (Py_DecodeOne str i).2 ≤ f := by omega
      simp only [u8FinalF, if_pos hi] at hfin
      simp only [u8WidthF, u8TextPosF, if_pos hi]
      rw [if_neg (by omega)]
      rw [← Nat.add_assoc]
      exact ih (Py_DecodeOne str i).2 (scols + Py_GetWidth (Py_DecodeOne str i).1) hfe hfin
    · simp only [u8FinalF, if_neg hi] at hfin
      subst hfin
      simp only [u8WidthF, u8TextPosF, if_neg hi, Nat.add_zero]

/-- Code-point-path analogue of `u8_exact_search`: the index walks one
step at a time, so reaching `e` needs no boundary condition. -/
lemma ustr_exact_search (u : List Nat) (e : Nat) :
    ∀ (f i scols : Nat), e - i ≤ f → i ≤ e →
      ustrTextPosF u e (scols + ustrWidthF u e f i) f i scols =
        (e, scols + ustrWidthF u e f i) := by
  intro f
  induction f with
  | zero =>
    intro i scols hf hie
    have hie' : i = e := by omega
    subst hie'
    simp only [ustrWidthF, ustrTextPosF, Nat.add_zero]
  | succ f ih =>
    intro i scols hf hie
    by_cases hi : i < e
    · have hfe : e - (i + 1) ≤ f := by omega
      simp only [ustrWidthF, ustrTextPosF, if_pos hi]
      rw [if_neg (by omega)]
      rw [← Nat.add_assoc]
      exact ih (i + 1) (scols + Py_GetWidth (u.getD i 0)) hfe (by omega)
    · have hie' : i = e := by omega
      subst hie'
      simp only [ustrWidthF, ustrTextPosF, if_neg hi, Nat.add_zero]

/-- Counterexample to claim C5 as stated: when the span end cuts a UTF-8
sequence (e = 1 inside the two-byte sequence [0xC3, 0xA9]), the decoding
walk overshoots `e` and the search returns offset 2, not e = 1. -/
theorem calc_text_pos_total_width_cex :
    Py_CalcTextPos Enc.utf8 [0xC3, 0xA9] 0 1 (Py_CalcWidth Enc.utf8 [0xC3, 0xA9] 0 1) = (2, 1) ∧
      (Py_CalcTextPos Enc.utf8 [0xC3, 0xA9] 0 1
        (Py_CalcWidth Enc.utf8 [0xC3, 0xA9] 0 1)).1 ≠ 1 := by
  decide

/-- Claim C5 (amended): searching for the span's exact total width lands at
the span end, provided the end offset is a character boundary of the
decoding walk (UTF-8 byte path; automatic for the wide/narrow byte path
with s <= e, and for the code-point path with s <= e). -/
theorem calc_text_pos_total_width (enc : Enc) (str u : List Nat) (s e : Nat) :
    (enc = Enc.utf8 → u8FinalF str e (e - s) s = e →
      Py_CalcTextPos enc str s e (Py_CalcWidth enc str s e) =
        (e, Py_CalcWidth enc str s e)) ∧
    (enc ≠ Enc.utf8 → s ≤ e →
      Py_CalcTextPos enc str s e (Py_CalcWidth enc str s e) =
        (e, Py_CalcWidth enc str s e)) ∧
    (s ≤ e → Py_CalcTextPosU u s e (Py_CalcWidthU u s e) = (e, Py_CalcWidthU u s e)) := by
  refine ⟨?_, ?_, ?_⟩
  · intro he hfin
    subst he
    simp only [Py_CalcTextPos, Py_CalcWidth]
    simpa using u8_exact_search str e (e - s) s 0 (Nat.le_refl _) hfin
  · intro hne hse
    cases enc with
    | utf8 => exact absurd rfl hne
    | wide =>
      simp only [Py_CalcTextPos, Py_CalcWidth]
      rw [if_pos (by omega)]
    | narrow =>
      simp only [Py_CalcTextPos, Py_CalcWidth]
      rw [if_pos (by omega)]
  · intro hse
    simp only [Py_CalcTextPosU, Py_CalcWidthU]
    simpa using ustr_exact_search u e (e - s) s 0 (Nat.le_refl _) hse

/-- Witness for `calc_text_pos_total_width`: the one-byte ASCII buffer
[0x41] on the byte path and the one-code-point text [0x300] on the
code-point path. -/
theorem calc_text_pos_total_width_witness :
    u8FinalF [0x41] 1 (1 - 0) 0 = 1 ∧
      Py_CalcTextPos Enc.utf8 [0x41] 0 1 (Py_CalcWidth Enc.utf8 [0x41] 0 1) =
        (1, Py_CalcWidth Enc.utf8 [0x41] 0 1) ∧
      Py_CalcTextPosU [0x300] 0 1 (Py_CalcWidthU [0x300] 0 1) =
        (1, Py_CalcWidthU [0x300] 0 1) :=
  ⟨by decide, (calc_text_pos_total_width Enc.utf8 [0x41] [] 0 1).1 rfl (by decide),
    (calc_text_pos_total_width Enc.utf8 [] [0x300] 0 1).2.2 (by decide)⟩

/-- Counterexample to claim C6 as stated: when the first character of the
span has width 0 (here U+0300, bytes [0xCC, 0x80]), the search for
column 0 advances past it and does not return the span start. -/
theorem calc_text_pos_zero_cex :
    Py_CalcTextPos Enc.utf8 [0xCC, 0x80] 0 2 0 = (2, 0) ∧
      (Py_CalcTextPos Enc.utf8 [0xCC, 0x80] 0 2 0).1 ≠ 0 := by
  decide

/-- Claim C6 (amended): searching for column 0 returns (s, 0) provided the
span is empty or its first character has nonzero display width (the
search skips leading width-0 characters); in WIDE/NARROW modes this holds
for every span with s <= e, since the landing point s is never the second
half of a pair anchored at s. -/
theorem calc_text_pos_zero (enc : Enc) (str u : List Nat) (s e : Nat) :
    (enc = Enc.utf8 → (e ≤ s ∨ 0 < Py_GetWidth (Py_DecodeOne str s).1) →
      Py_CalcTextPos enc str s e 0 = (s, 0)) ∧
    (enc ≠ Enc.utf8 → s ≤ e → Py_CalcTextPos enc str s e 0 = (s, 0)) ∧
    ((s < e → 0 < Py_GetWidth (u.getD s 0)) → Py_CalcTextPosU u s e 0 = (s, 0)) := by
  refine ⟨?_, ?_, ?_⟩
  · intro he hw
    subst he
    simp only [Py_CalcTextPos]
    by_cases hse : s < e
    · have hw' : 0 < Py_GetWidth (Py_DecodeOne str s).1 := by
        rcases hw with h | h
        · omega
        · exact h
      obtain ⟨f, hf⟩ : ∃ f, e - s = f + 1 := ⟨e - s - 1, by omega⟩
      rw [hf]
      simp only [u8TextPosF]
      rw [if_pos hse, if_pos (by omega)]
    · have hz : e - s = 0 := by omega
      rw [hz]
      simp only [u8TextPosF]
  · intro hne hse
    cases enc with
    | utf8 => exact absurd rfl hne
    | wide =>
      simp only [Py_CalcTextPos, Nat.add_zero]
      by_cases hcap : e ≤ s
      · have h1 : e = s := by omega
        rw [if_pos hcap, h1, Nat.sub_self]
      · rw [if_neg hcap, if_neg (withinDB_self str s), Nat.sub_self]
    | narrow =>
      simp only [Py_CalcTextPos, Nat.add_zero]
      by_cases hcap : e ≤ s
      · have h1 : e = s := by omega
        rw [if_pos hcap, h1, Nat.sub_self]
      · rw [if_neg hcap, Nat.sub_self]
  · intro hw
    simp only [Py_CalcTextPosU]
    by_cases hse : s < e
    · obtain ⟨f, hf⟩ : ∃ f, e - s = f + 1 := ⟨e - s - 1, by omega⟩
      rw [hf]
      simp only [ustrTextPosF]
      have hw' := hw hse
      rw [if_pos hse, if_pos (by omega)]
    · have hz : e - s = 0 := by omega
      rw [hz]
      simp only [ustrTextPosF]

/-- Witness for `calc_text_pos_zero`: ASCII byte [0x41] on the UTF-8 path
and the double-byte lead [0xA1] in WIDE mode. -/
theorem calc_text_pos_zero_witness :
    Py_CalcTextPos Enc.utf8 [0x41] 0 1 0 = (0, 0) ∧
      Py_CalcTextPos Enc.wide [0xA1] 0 1 0 = (0, 0) ∧
      Py_CalcTextPosU [0x4E2D] 0 1 0 = (0, 0) :=
  ⟨(calc_text_pos_zero Enc.utf8 [0x41] [] 0 1).1 rfl (Or.inr (by decide)),
    (calc_text_pos_zero Enc.wide [0xA1] [] 0 1).2.1 (by decide) (by decide),
    (calc_text_pos_zero Enc.utf8 [] [0x4E2D] 0 1).2.2 (fun _ => by decide)⟩
